import Mathlib

/-!
# Verification of the MIT-vsosh malware-analysis sandbox

Shallow embedding of the parts of the repository needed to settle the
specification claims: the threat scorer and string analyzer of
`dynamic.py`, the anti-VM QEMU argument builders of `anti_vm/`
(`qemu_args.py`, `timing_fix.py`, `hardware_spoof.py`, `smbios_spoof.py`),
and the in-guest agent of `vm_images/agent/agent.py`.

Python strings are modelled as Lean `String` (or `List Char` where byte
level detail matters), byte strings as `List Nat` with values below 256,
Python `int` as `Int`/`Nat`, and dictionaries as association lists.
Random draws (`random.choice`, `random.randint`, serial/UUID fills) are
threaded through as explicit parameters.
-/

namespace Sandbox

/-! ## Generic helpers -/

/-- Boolean test that `needle` is a leading segment of `hay`. -/
def isPrefixB [DecidableEq α] : List α → List α → Bool
  | [], _ => true
  | _ :: _, [] => false
  | a :: as, b :: bs => a = b && isPrefixB as bs

/-- Boolean test that `needle` occurs contiguously inside `hay`
(the semantics of Python's `in` operator on strings and of `re.search`
applied to a literal pattern). -/
def isInfixB [DecidableEq α] (needle : List α) : List α → Bool
  | [] => needle.isEmpty
  | b :: bs => isPrefixB needle (b :: bs) || isInfixB needle bs

/-- Python's `'needle' in hay` on strings. -/
def strContains (hay needle : String) : Bool :=
  isInfixB needle.data hay.data

/-- Deduplication keeping the first occurrence of each element,
accumulating the elements already seen. -/
def firstSeenDedupAux (seen : List String) : List String → List String
  | [] => []
  | x :: xs =>
    if x ∈ seen then firstSeenDedupAux seen xs
    else x :: firstSeenDedupAux (seen ++ [x]) xs

/-- Deduplication keeping the first occurrence of each element. -/
def firstSeenDedup (l : List String) : List String :=
  firstSeenDedupAux [] l

/-- The bytes of an ASCII string. -/
def asciiBytes (s : String) : List Nat :=
  s.data.map Char.toNat

/-! ## `dynamic.py`: threat events, string analyzer, rule engine, scorer -/

namespace Dynamic

/-- `dynamic.py` dataclass `ThreatEvent`.  The `timestamp` field is filled
by `datetime.now().isoformat()` at construction; it is carried as plain
data here. -/
structure ThreatEvent where
  source : String
  event_type : String
  details : String
  score : Int
  mitre : Option String := none
  timestamp : String := ""
deriving DecidableEq, Repr

/-- `dynamic.py` `SUSPICIOUS_STRINGS`: `(pattern, mitre, score, description)`.
Every regex in the source table is a literal once `\.` escapes are removed,
so the patterns are carried as the literal text they match. -/
def SUSPICIOUS_STRINGS : List (String × String × Int × String) :=
  [("api.telegram.org", "T1102", 20, "Telegram API"),
   ("discord.com", "T1102", 15, "Discord"),
   ("/etc/shadow", "T1003", 25, "Shadow file"),
   ("/etc/passwd", "T1003", 15, "Passwd file"),
   (".ssh/", "T1552.004", 20, "SSH directory"),
   ("LD_PRELOAD", "T1574.006", 15, "LD_PRELOAD"),
   ("PTRACE_TRACEME", "T1622", 15, "Anti-debugging")]

/-- Lowercase an ASCII byte (for the `re.IGNORECASE` matching in
`ELFAnalyzer._analyze_strings`). -/
def toLowerByte (b : Nat) : Nat :=
  if 65 ≤ b ∧ b ≤ 90 then b + 32 else b

/-- Loop of `ELFAnalyzer._analyze_strings`: collect maximal runs of
printable bytes (32..126) of length ≥ 4.  As in the source, a run still
open when the data ends is dropped. -/
def extractGo : List Nat → List Nat → List (List Nat)
  | [], _current => []
  | b :: rest, current =>
    if 32 ≤ b ∧ b ≤ 126 then extractGo rest (current ++ [b])
    else if current.length ≥ 4 then current :: extractGo rest []
    else extractGo rest []

/-- Printable string extraction of `ELFAnalyzer._analyze_strings`. -/
def extractStrings (data : List Nat) : List (List Nat) :=
  extractGo data []

/-- `'\n'.join(strings)` over the extracted runs. -/
def joinedStrings (data : List Nat) : List Nat :=
  List.intercalate [10] (extractStrings data)

/-- `re.search(pattern, all_strings, re.IGNORECASE)` for the literal
patterns of `SUSPICIOUS_STRINGS`. -/
def matchesPattern (pat : String) (data : List Nat) : Bool :=
  isInfixB ((asciiBytes pat).map toLowerByte) ((joinedStrings data).map toLowerByte)

/-- `ELFAnalyzer._analyze_strings`: one event per table entry whose
pattern occurs in the extracted strings. -/
def analyze_strings (data : List Nat) : List ThreatEvent :=
  SUSPICIOUS_STRINGS.filterMap fun e =>
    if matchesPattern e.1 data then
      some { source := "elf", event_type := "string", details := e.2.2.2,
             score := e.2.2.1, mitre := some e.2.1 }
    else none

/-- The part of the `RuleEngine` patterns dictionary that the scorer
consults: the optional `verdict_thresholds` mapping.  A missing
`patterns.yaml` leaves the dictionary empty (`verdict_thresholds := none`). -/
structure RulePatterns where
  verdict_thresholds : Option (List (String × Int)) := none

/-- `RuleEngine.get_threshold`:
`self.patterns.get('verdict_thresholds', {}).get(level, 50)`. -/
def get_threshold (rp : RulePatterns) (level : String) : Int :=
  ((rp.verdict_thresholds.getD []).lookup level).getD 50

/-- `ThreatScorer` mutable state: the appended events and the running
total score. -/
structure ThreatScorer where
  events : List ThreatEvent := []
  total_score : Int := 0
deriving DecidableEq, Repr

/-- `ThreatScorer.add_event`. -/
def add_event (s : ThreatScorer) (e : ThreatEvent) : ThreatScorer :=
  { events := s.events ++ [e], total_score := s.total_score + e.score }

/-- `ThreatScorer.add_events`. -/
def add_events (s : ThreatScorer) (es : List ThreatEvent) : ThreatScorer :=
  es.foldl add_event s

/-- `ThreatScorer.get_verdict`, with the scorer's rule engine passed
explicitly. -/
def get_verdict (rp : RulePatterns) (s : ThreatScorer) : String :=
  if s.total_score ≤ get_threshold rp "clean" then "CLEAN"
  else if s.total_score ≤ get_threshold rp "suspicious" then "SUSPICIOUS"
  else "MALICIOUS"

/-- The tags the comprehension `{e.mitre for e in self.events if e.mitre}`
ranges over: `None` and the empty string are falsy and skipped. -/
def mitreTags (events : List ThreatEvent) : List String :=
  events.filterMap fun e =>
    match e.mitre with
    | some m => if m = "" then none else some m
    | none => none

/-- `ThreatScorer.get_mitre_techniques`, i.e. `list({e.mitre ...})`.
CPython materialises the comprehension as a hash set and `list` reads it
back in hash-table order, which depends on the per-process string-hash
seed and not on insertion order.  That order is abstracted as an explicit
parameter `h`: the distinct tags are listed in ascending `h`-order. -/
def get_mitre_techniques (h : String → Nat) (events : List ThreatEvent) : List String :=
  List.insertionSort (fun a b => h a ≤ h b) (firstSeenDedup (mitreTags events))

/-- The verdict rule as the specification words it: thresholds default to
20 (clean) and 50 (suspicious).  Stated from the spec, for comparison
with `get_verdict`. -/
def spec_verdict (clean suspicious score : Int) : String :=
  if score ≤ clean then "CLEAN"
  else if score ≤ suspicious then "SUSPICIOUS"
  else "MALICIOUS"

end Dynamic

/-! ## `anti_vm/`: QEMU argument assembly -/

namespace AntiVM

/-- `qemu_args.py` dataclass `AntiVMQEMUConfig` (socket/display fields that
no claim touches are kept with their source defaults). -/
structure AntiVMQEMUConfig where
  architecture : String := "x86_64"
  use_kvm : Bool := false
  ram_mb : Nat := 4096
  cpus : Nat := 4
  disk_image : String := ""
  smbios_profile : String := "dell_optiplex"
  mac_vendor : String := "dell"
  disk_vendor : String := "western_digital"
  network_enabled : Bool := false
  display : String := "none"
  vnc_display : Nat := 0
  stabilize_timing : Bool := true
  tsc_frequency : Nat := 3600000000
  hide_hypervisor : Bool := true
  hide_kvm_features : Bool := true

/-- The source's default configuration (`AntiVMQEMUConfig()`). -/
def defaultAntiVMConfig : AntiVMQEMUConfig := {}

/-- `timing_fix.get_timing_cpu_flags`: builds a `TimingConfig` with
`enable_invtsc=True`, the given `tsc_frequency` and `kvmclock=False`, and
returns `TimingFixer.get_cpu_timing_flags()` on it.  The
`if self.config.tsc_frequency:` test in the source is Python truthiness,
i.e. the frequency flag is emitted exactly when the frequency is not 0. -/
def get_timing_cpu_flags (stabilize : Bool) (tsc_frequency : Nat) : List String :=
  if stabilize = false then []
  else
    ["+invtsc"]
      ++ (if tsc_frequency ≠ 0 then ["tsc-frequency=" ++ toString tsc_frequency] else [])
      ++ ["-kvmclock", "-kvmclock-stable-bit"]

/-- The paravirt feature names subtracted by
`QEMUArgsBuilder._build_cpu_args` when `hide_kvm_features` is set. -/
def kvm_features : List String :=
  ["kvm_pv_eoi", "kvm_pv_unhalt", "kvm_steal_time", "kvmclock", "kvmclock-stable-bit"]

/-- The `realistic_features` list of `QEMUArgsBuilder._build_cpu_args`. -/
def realistic_features : List String :=
  ["+sse4.1", "+sse4.2", "+ssse3", "+popcnt", "+avx", "+aes", "+pclmulqdq"]

/-- The `cpu_flags` list assembled by `QEMUArgsBuilder._build_cpu_args`
on the x86_64 path. -/
def buildCpuFlags (c : AntiVMQEMUConfig) : List String :=
  ["qemu64"]
    ++ (if c.hide_hypervisor then ["-hypervisor"] else [])
    ++ (if c.hide_kvm_features then kvm_features.map (fun f => "-" ++ f) else [])
    ++ (if c.stabilize_timing then get_timing_cpu_flags true c.tsc_frequency else [])
    ++ realistic_features

/-- `QEMUArgsBuilder._build_cpu_args`. -/
def buildCpuArgs (c : AntiVMQEMUConfig) : List String :=
  if c.architecture = "aarch64" then
    if c.use_kvm then ["-cpu", "host"] else ["-cpu", "max"]
  else
    ["-cpu", String.intercalate "," (buildCpuFlags c)]

/-- `hardware_spoof.py` `MAC_OUI_PREFIXES`. -/
def MAC_OUI_PREFIXES : List (String × List String) :=
  [("dell", ["D4:BE:D9", "18:03:73", "34:17:EB", "F8:DB:88", "00:14:22"]),
   ("hp", ["94:57:A5", "00:21:5A", "38:63:BB", "3C:D9:2B", "00:1E:0B"]),
   ("lenovo", ["00:06:1B", "7C:7A:91", "6C:C2:17", "68:F7:28", "98:FA:9B"]),
   ("intel", ["00:1B:21", "00:1E:67", "00:15:17", "00:1C:BF", "00:13:E8"]),
   ("realtek", ["00:E0:4C", "52:54:00", "00:0A:CD", "4C:ED:FB", "00:40:F4"]),
   ("broadcom", ["00:10:18", "00:1A:2B", "00:24:D6", "60:33:4B", "44:94:FC"]),
   ("samsung", ["00:12:47", "00:21:4C", "84:25:DB", "F0:1F:AF", "94:35:0A"]),
   ("asus", ["00:1D:60", "00:15:F2", "2C:4D:54", "40:16:7E", "E0:3F:49"])]

/-- The VM-vendor OUI prefixes the specification forbids in generated
MAC addresses. -/
def forbiddenOUIs : List String :=
  ["52:54:00", "00:0C:29", "00:50:56", "08:00:27", "00:16:3E", "00:15:5D"]

/-- `hardware_spoof.py` dataclass `HardwareConfig` (network/storage part). -/
structure HardwareConfig where
  mac_vendor : String := "dell"
  custom_mac : Option String := none
  disk_vendor : String := "western_digital"
  custom_disk_serial : Option String := none

/-- One uppercase hex digit, for `f'{b:02X}'`. -/
def hexDigitUpper (n : Nat) : Char :=
  if n < 10 then Char.ofNat (48 + n) else Char.ofNat (55 + n)

/-- `f'{b:02X}'` for a byte value. -/
def byteHexUpper (b : Nat) : String :=
  String.mk [hexDigitUpper (b / 16 % 16), hexDigitUpper (b % 16)]

/-- `HardwareSpoofer.generate_mac_address`.  The random draws are
explicit: `choice` selects the OUI (`random.choice` picks index
`choice % length`) and `b1 b2 b3` are the three `random.randint(0, 255)`
device bytes. -/
def generate_mac_address (cfg : HardwareConfig) (choice : Nat)
    (b1 b2 b3 : Fin 256) : String :=
  match cfg.custom_mac with
  | some m => m
  | none =>
    let ouiList :=
      (MAC_OUI_PREFIXES.lookup cfg.mac_vendor).getD
        ((MAC_OUI_PREFIXES.lookup "intel").getD [])
    let oui := ouiList.getD (choice % ouiList.length) ""
    oui ++ ":" ++ String.intercalate ":" ([b1.1, b2.1, b3.1].map byteHexUpper)

/-- `smbios_spoof.py` dataclass `SMBIOSProfile`. -/
structure SMBIOSProfile where
  bios_vendor : String := "Dell Inc."
  bios_version : String := "A12"
  bios_date : String := "03/15/2023"
  sys_manufacturer : String := "Dell Inc."
  sys_product : String := "OptiPlex 7080"
  sys_version : String := "1.0"
  sys_serial : String := ""
  sys_uuid : String := ""
  sys_sku : String := "Desktop"
  sys_family : String := "OptiPlex"
  board_manufacturer : String := "Dell Inc."
  board_product : String := "0X8DXD"
  board_version : String := "A00"
  board_serial : String := ""
  board_asset_tag : String := ""
  chassis_manufacturer : String := "Dell Inc."
  chassis_type : Nat := 3
  chassis_version : String := "1.0"
  chassis_serial : String := ""
  chassis_asset_tag : String := ""
  processor_manufacturer : String := "Intel(R) Corporation"
  processor_version : String := "Intel(R) Core(TM) i7-10700 CPU @ 2.90GHz"
  processor_serial : String := ""
deriving DecidableEq, Repr

/-- `SMBIOS_PROFILES['dell_optiplex']`. -/
def dell_optiplex : SMBIOSProfile := {}

/-- `SMBIOS_PROFILES['dell_latitude']`. -/
def dell_latitude : SMBIOSProfile :=
  { bios_version := "1.15.0", bios_date := "05/10/2023",
    sys_product := "Latitude 5520", sys_sku := "Laptop", sys_family := "Latitude",
    board_product := "0YWMR4", chassis_type := 10,
    processor_version := "11th Gen Intel(R) Core(TM) i5-1145G7 @ 2.60GHz" }

/-- `SMBIOS_PROFILES['hp_prodesk']`. -/
def hp_prodesk : SMBIOSProfile :=
  { bios_vendor := "HP", bios_version := "S14 Ver. 02.09.00", bios_date := "05/20/2023",
    sys_manufacturer := "HP", sys_product := "HP ProDesk 400 G7 Small Form Factor",
    sys_sku := "8QY21AV", sys_family := "HP ProDesk",
    board_manufacturer := "HP", board_product := "8767",
    board_version := "KBC Version 08.60.00",
    chassis_manufacturer := "HP", chassis_type := 3,
    processor_version := "Intel(R) Core(TM) i5-10500 CPU @ 3.10GHz" }

/-- `SMBIOS_PROFILES['hp_elitebook']`. -/
def hp_elitebook : SMBIOSProfile :=
  { bios_vendor := "HP", bios_version := "T76 Ver. 01.12.00", bios_date := "04/15/2023",
    sys_manufacturer := "HP", sys_product := "HP EliteBook 840 G8 Notebook PC",
    sys_sku := "3C8F3EA#ABB", sys_family := "HP EliteBook",
    board_manufacturer := "HP", board_product := "880D",
    board_version := "KBC Version 51.30.00",
    chassis_manufacturer := "HP", chassis_type := 10,
    processor_version := "11th Gen Intel(R) Core(TM) i7-1165G7 @ 2.80GHz" }

/-- `SMBIOS_PROFILES['lenovo_thinkcentre']`. -/
def lenovo_thinkcentre : SMBIOSProfile :=
  { bios_vendor := "LENOVO", bios_version := "M3CKT49A", bios_date := "01/10/2023",
    sys_manufacturer := "LENOVO", sys_product := "ThinkCentre M920q",
    sys_version := "ThinkCentre M920q", sys_sku := "10V8S04X00",
    sys_family := "ThinkCentre M920q Tiny",
    board_manufacturer := "LENOVO", board_product := "313D",
    board_version := "SDK0J40697 WIN",
    chassis_manufacturer := "LENOVO", chassis_type := 35,
    processor_version := "Intel(R) Core(TM) i7-9700T CPU @ 2.00GHz" }

/-- `SMBIOS_PROFILES['lenovo_thinkpad']`. -/
def lenovo_thinkpad : SMBIOSProfile :=
  { bios_vendor := "LENOVO", bios_version := "N33ET69W (1.50)", bios_date := "06/01/2023",
    sys_manufacturer := "LENOVO", sys_product := "ThinkPad T14 Gen 2i",
    sys_version := "ThinkPad T14 Gen 2i", sys_sku := "20W0CTO1WW",
    sys_family := "ThinkPad T14 Gen 2i",
    board_manufacturer := "LENOVO", board_product := "20W0CTO1WW",
    board_version := "SDK0J40697 WIN",
    chassis_manufacturer := "LENOVO", chassis_type := 10,
    processor_version := "11th Gen Intel(R) Core(TM) i7-1165G7 @ 2.80GHz" }

/-- `SMBIOS_PROFILES['asus_desktop']`. -/
def asus_desktop : SMBIOSProfile :=
  { bios_vendor := "American Megatrends Inc.", bios_version := "3801",
    bios_date := "02/22/2023",
    sys_manufacturer := "ASUS", sys_product := "System Product Name",
    sys_version := "System Version", sys_sku := "SKU", sys_family := "ASUS_MB_CNL",
    board_manufacturer := "ASUSTeK COMPUTER INC.",
    board_product := "ROG STRIX Z490-E GAMING", board_version := "Rev 1.xx",
    chassis_manufacturer := "Default string", chassis_type := 3,
    processor_version := "Intel(R) Core(TM) i9-10900K CPU @ 3.70GHz" }

/-- `smbios_spoof.py` `SMBIOS_PROFILES`. -/
def SMBIOS_PROFILES : List (String × SMBIOSProfile) :=
  [("dell_optiplex", dell_optiplex),
   ("dell_latitude", dell_latitude),
   ("hp_prodesk", hp_prodesk),
   ("hp_elitebook", hp_elitebook),
   ("lenovo_thinkcentre", lenovo_thinkcentre),
   ("lenovo_thinkpad", lenovo_thinkpad),
   ("asus_desktop", asus_desktop)]

/-- The random draws consumed by `SMBIOSSpoofer._fill_auto_values`: the
alphanumeric serial characters of each manufacturer branch, the
`uuid.uuid4()` string and the middle of the board serial. -/
structure SMBIOSRandom where
  dellChars : String := "A1B2C3D"
  hpChars : String := "H1P2C3D"
  lenovoChars : String := "L1N2V3"
  otherChars : String := "O1T2H3R4S5"
  uuid : String := "00000000-0000-4000-8000-000000000000"
  boardMiddle : String := "B0A1R2D3S4"

/-- `SMBIOSSpoofer._fill_auto_values`, with the random draws explicit. -/
def fill_auto_values (p : SMBIOSProfile) (r : SMBIOSRandom) : SMBIOSProfile :=
  let sys_serial :=
    if p.sys_serial = "" then
      if strContains p.sys_manufacturer "Dell" then r.dellChars
      else if strContains p.sys_manufacturer "HP" then "MXL" ++ r.hpChars
      else if strContains p.sys_manufacturer "LENOVO" then "PF" ++ r.lenovoChars
      else r.otherChars
    else p.sys_serial
  let sys_uuid := if p.sys_uuid = "" then r.uuid else p.sys_uuid
  let board_serial :=
    if p.board_serial = "" then "./" ++ r.boardMiddle ++ "/." else p.board_serial
  let chassis_serial := if p.chassis_serial = "" then sys_serial else p.chassis_serial
  { p with sys_serial := sys_serial, sys_uuid := sys_uuid,
           board_serial := board_serial, chassis_serial := chassis_serial }

/-- `SMBIOSSpoofer.__init__` on the `profile_name` path:
`SMBIOS_PROFILES.get(profile_name, SMBIOS_PROFILES['dell_optiplex'])`,
then `_fill_auto_values`.  Total over all profile names. -/
def spooferInit (name : String) (r : SMBIOSRandom) : SMBIOSProfile :=
  fill_auto_values ((SMBIOS_PROFILES.lookup name).getD dell_optiplex) r

/-- The `type=0` table string of `SMBIOSSpoofer.get_qemu_args`. -/
def type0Str (p : SMBIOSProfile) : String :=
  "type=0,vendor=" ++ p.bios_vendor ++ ",version=" ++ p.bios_version
    ++ ",date=" ++ p.bios_date

/-- The `type=1` table string of `SMBIOSSpoofer.get_qemu_args`. -/
def type1Str (p : SMBIOSProfile) : String :=
  "type=1,manufacturer=" ++ p.sys_manufacturer ++ ",product=" ++ p.sys_product
    ++ ",version=" ++ p.sys_version ++ ",serial=" ++ p.sys_serial
    ++ ",uuid=" ++ p.sys_uuid ++ ",sku=" ++ p.sys_sku ++ ",family=" ++ p.sys_family

/-- The `type=2` table string of `SMBIOSSpoofer.get_qemu_args`. -/
def type2Str (p : SMBIOSProfile) : String :=
  "type=2,manufacturer=" ++ p.board_manufacturer ++ ",product=" ++ p.board_product
    ++ ",version=" ++ p.board_version ++ ",serial=" ++ p.board_serial

/-- The `type=3` table string of `SMBIOSSpoofer.get_qemu_args`. -/
def type3Str (p : SMBIOSProfile) : String :=
  "type=3,manufacturer=" ++ p.chassis_manufacturer ++ ",type=" ++ toString p.chassis_type
    ++ ",version=" ++ p.chassis_version ++ ",serial=" ++ p.chassis_serial

/-- The `type=4` table string of `SMBIOSSpoofer.get_qemu_args`. -/
def type4Str (p : SMBIOSProfile) : String :=
  "type=4,manufacturer=" ++ p.processor_manufacturer
    ++ ",version=" ++ p.processor_version

/-- `SMBIOSSpoofer.get_qemu_args`. -/
def get_qemu_args (p : SMBIOSProfile) : List String :=
  ["-smbios", type0Str p, "-smbios", type1Str p, "-smbios", type2Str p,
   "-smbios", type3Str p, "-smbios", type4Str p]

end AntiVM

/-! ## `vm_images/agent/agent.py`: the in-guest agent -/

namespace Agent

/-- `agent.py` dataclass `SyscallEvent` (the float timestamp is carried
as an integer tick value; no claim depends on its arithmetic). -/
structure SyscallEvent where
  timestamp : Int
  syscall : String
  args : List String
  result : String
  pid : Int
deriving DecidableEq, Repr

/-- `agent.py` dataclass `FileEvent`. -/
structure FileEvent where
  timestamp : Int
  event_type : String
  path : String
  pid : Int
deriving DecidableEq, Repr

/-- `agent.py` dataclass `NetworkEvent`. -/
structure NetworkEvent where
  timestamp : Int
  event_type : String
  src_addr : String
  dst_addr : String
  dst_port : Nat
  protocol : String
  data : String := ""
deriving DecidableEq, Repr

/-- `agent.py` dataclass `ProcessEvent`. -/
structure ProcessEvent where
  timestamp : Int
  event_type : String
  pid : Int
  ppid : Int
  cmdline : String
  exit_code : Option Int := none
deriving DecidableEq, Repr

/-- `agent.py` dataclass `AnalysisResult` (stdout/stderr kept as
character lists, matching Python `str` after the utf-8 decode). -/
structure AnalysisResult where
  success : Bool
  file_hash : String
  start_time : Int
  end_time : Int
  duration : Int
  exit_code : Option Int
  stdout : List Char
  stderr : List Char
  syscalls : List SyscallEvent := []
  files : List FileEvent := []
  network : List NetworkEvent := []
  processes : List ProcessEvent := []
  events : List String := []
  error : Option String := none
deriving DecidableEq, Repr

/-- How the target's execution inside `SandboxAgent.analyze` ended:
`communicate` returned within the timeout, `TimeoutExpired` was raised
(with the output recovered by the second `communicate` after the kill),
or `Popen`/`communicate` raised some other exception `msg` (in which case
the `stdout`/`stderr` locals keep their initial empty value). -/
inductive ExecOutcome where
  | completed (stdout stderr : List Char) (code : Int)
  | timedOut (stdout stderr : List Char)
  | failed (msg : String)
deriving DecidableEq, Repr

/-- `SandboxAgent.analyze`, starting from the target execution: the file
hash, the execution outcome and the collected monitor event lists are
inputs (file hashing, spawning and the monitor subprocesses are I/O).
Faithful to the source: on timeout `error="Timeout"` and `exit_code=-1`;
on another exception `exit_code` stays `None`; `success = error is None`;
`stdout`/`stderr` are sliced to the first 10000 characters
(`stdout[:10000]`); `processes` and `events` are always empty. -/
def analyze (file_hash : String) (outcome : ExecOutcome)
    (sys : List SyscallEvent) (fil : List FileEvent) (net : List NetworkEvent)
    (start_time end_time : Int) : AnalysisResult :=
  let collected : List Char × List Char × Option Int × Option String :=
    match outcome with
    | .completed o e c => (o, e, some c, none)
    | .timedOut o e => (o, e, some (-1), some "Timeout")
    | .failed m => ([], [], none, some m)
  { success := collected.2.2.2.isNone
    file_hash := file_hash
    start_time := start_time
    end_time := end_time
    duration := end_time - start_time
    exit_code := collected.2.2.1
    stdout := collected.1.take 10000
    stderr := collected.2.1.take 10000
    syscalls := sys
    files := fil
    network := net
    processes := []
    events := []
    error := collected.2.2.2 }

/-- One lowercase hex digit, as produced by `bytes.hex()`. -/
def hexDigitLower (n : Nat) : Char :=
  if n < 10 then Char.ofNat (48 + n) else Char.ofNat (87 + n)

/-- The two lowercase hex digits of one byte. -/
def byteToHex (b : Nat) : List Char :=
  [hexDigitLower (b / 16), hexDigitLower (b % 16)]

/-- Python `bytes.hex()`: lowercase, two digits per byte. -/
def bytesToHex (bs : List Nat) : List Char :=
  (bs.map byteToHex).flatten

/-- The value of one hex digit, either case, `none` otherwise. -/
def hexDigitVal (c : Char) : Option Nat :=
  if 48 ≤ c.toNat ∧ c.toNat ≤ 57 then some (c.toNat - 48)
  else if 97 ≤ c.toNat ∧ c.toNat ≤ 102 then some (c.toNat - 87)
  else if 65 ≤ c.toNat ∧ c.toNat ≤ 70 then some (c.toNat - 55)
  else none

/-- Python `bytes.fromhex` on a string without whitespace: pairs of hex
digits, failing (`ValueError`) on a stray digit or a non-hex character. -/
def hexToBytes : List Char → Option (List Nat)
  | [] => some []
  | [_] => none
  | c1 :: c2 :: rest =>
    match hexDigitVal c1, hexDigitVal c2, hexToBytes rest with
    | some h, some l, some bs => some ((h * 16 + l) :: bs)
    | _, _, _ => none

/-- The guest filesystem as the agent's file commands see it: newest
binding of a path first. -/
def Fs := List (String × List Nat)

/-- An agent RPC response: `success`, optional `error`, and for
`read_file` the hex-encoded `data` field. -/
structure AgentResponse where
  success : Bool
  error : Option String := none
  data : Option (List Char) := none
deriving DecidableEq, Repr

/-- The agent commands whose handlers are pure filesystem state
transitions (`ping`, `write_file`, `read_file` of
`SandboxAgent.handle_command`; `analyze`, `execute` and `status` run
subprocesses and are modelled separately by `analyze`). -/
inductive AgentCommand where
  | ping
  | writeFile (path : String) (data : List Char) (mode : Nat)
  | readFile (path : String)
  | unknown (cmd : String)
deriving DecidableEq, Repr

/-- `SandboxAgent.handle_command` on the filesystem commands.
`write_file` decodes the hex payload with `bytes.fromhex` — a decode
error is caught and reported as `success=False` — then overwrites the
file; the subsequent `os.chmod` is modelled as succeeding.  `read_file`
returns the file bytes hex-encoded, or the caught exception for a
missing path. -/
def handle_command (fs : Fs) : AgentCommand → Fs × AgentResponse
  | .ping => (fs, { success := true })
  | .writeFile path data _mode =>
    match hexToBytes data with
    | some bytes => ((path, bytes) :: fs, { success := true })
    | none =>
      (fs, { success := false,
             error := some "non-hexadecimal number found in fromhex() arg" })
  | .readFile path =>
    match fs.lookup path with
    | some bytes => (fs, { success := true, data := some (bytesToHex bytes) })
    | none =>
      (fs, { success := false, error := some ("No such file or directory: " ++ path) })
  | .unknown cmd =>
    (fs, { success := false, error := some ("Unknown command: " ++ cmd) })

end Agent

/-! ## Concrete fixtures used to settle individual claims -/

/-- The table shape the specification asserts for the SMBIOS argument
vector: exactly five `-smbios` tables of types 0, 1, 2, 3, 4 in that
order.  Stated from the spec, to be checked against
`SMBIOSSpoofer.get_qemu_args`. -/
def specSmbiosTableShape (args : List String) : Bool :=
  match args with
  | [f0, t0, f1, t1, f2, t2, f3, t3, f4, t4] =>
    f0 = "-smbios" && f1 = "-smbios" && f2 = "-smbios" && f3 = "-smbios"
      && f4 = "-smbios"
      && isPrefixB "type=0,".data t0.data && isPrefixB "type=1,".data t1.data
      && isPrefixB "type=2,".data t2.data && isPrefixB "type=3,".data t3.data
      && isPrefixB "type=4,".data t4.data
  | _ => false

/-- Scorer holding a single traced event of score 30 (within the range
where the spec's default thresholds and the code's defaults disagree). -/
def c2scorer : Dynamic.ThreatScorer :=
  Dynamic.add_event {}
    { source := "tracer", event_type := "call", details := "subprocess.Popen",
      score := 30, mitre := some "T1059" }

/-- A hash order under which `"T1003"` iterates before `"T1059"`. -/
def c3hash : String → Nat :=
  fun s => if s = "T1003" then 0 else 1

/-- Two scored events whose first-seen tag order is `T1059`, `T1003`. -/
def c3events : List Dynamic.ThreatEvent :=
  [{ source := "elf", event_type := "import", details := "execve: Program execution",
     score := 10, mitre := some "T1059" },
   { source := "elf", event_type := "string", details := "Shadow file",
     score := 25, mitre := some "T1003" }]

/-- ELF bytes containing the string `/etc/shadow` (a trailing NUL byte
closes the printable run, as the extractor requires). -/
def c7shadowData : List Nat :=
  asciiBytes "/etc/shadow" ++ [0]

/-- ELF bytes containing a path inside a `.ssh/` directory. -/
def c7sshData : List Nat :=
  asciiBytes "/home/user/.ssh/id_rsa" ++ [0]

/-- ELF bytes containing all three file paths of the claim, NUL-closed. -/
def c7allData : List Nat :=
  asciiBytes "/etc/shadow" ++ [0] ++ asciiBytes "/etc/passwd" ++ [0]
    ++ asciiBytes "/home/user/.ssh/id_rsa" ++ [0]

end Sandbox

namespace Sandbox

/-! ## Helper lemmas -/

theorem mem_firstSeenDedupAux (l : List String) (seen : List String) (a : String) :
    a ∈ firstSeenDedupAux seen l ↔ a ∈ l ∧ a ∉ seen := by
  induction l generalizing seen with
  | nil => simp [firstSeenDedupAux]
  | cons x xs ih =>
    by_cases hx : x ∈ seen
    · simp only [firstSeenDedupAux, if_pos hx, ih, List.mem_cons]
      constructor
      · rintro ⟨h1, h2⟩
        exact ⟨Or.inr h1, h2⟩
      · rintro ⟨h1 | h1, h2⟩
        · exact absurd (h1 ▸ hx) h2
        · exact ⟨h1, h2⟩
    · simp only [firstSeenDedupAux, if_neg hx, List.mem_cons, ih, List.mem_append,
        List.mem_singleton]
      constructor
      · rintro (rfl | ⟨h1, h2⟩)
        · exact ⟨Or.inl rfl, hx⟩
        · exact ⟨Or.inr h1, fun hs => h2 (Or.inl hs)⟩
      · rintro ⟨rfl | h1, h2⟩
        · exact Or.inl rfl
        · by_cases hax : a = x
          · exact Or.inl hax
          · exact Or.inr ⟨h1, by simp [h2, hax]⟩

theorem nodup_firstSeenDedupAux (l : List String) (seen : List String) :
    (firstSeenDedupAux seen l).Nodup := by
  induction l generalizing seen with
  | nil => simp [firstSeenDedupAux]
  | cons x xs ih =>
    by_cases hx : x ∈ seen
    · simpa [firstSeenDedupAux, if_pos hx] using ih seen
    · simp only [firstSeenDedupAux, if_neg hx, List.nodup_cons]
      refine ⟨fun hmem => ?_, ih _⟩
      rw [mem_firstSeenDedupAux] at hmem
      exact hmem.2 (by simp)

theorem mem_firstSeenDedup (l : List String) (a : String) :
    a ∈ firstSeenDedup l ↔ a ∈ l := by
  simp [firstSeenDedup, mem_firstSeenDedupAux]

theorem nodup_firstSeenDedup (l : List String) : (firstSeenDedup l).Nodup :=
  nodup_firstSeenDedupAux l []

theorem hexDigitVal_hexDigitLower (n : Nat) (h : n < 16) :
    Agent.hexDigitVal (Agent.hexDigitLower n) = some n := by
  interval_cases n <;> decide

theorem hexToBytes_bytesToHex (bs : List Nat) (h : ∀ b ∈ bs, b < 256) :
    Agent.hexToBytes (Agent.bytesToHex bs) = some bs := by
  induction bs with
  | nil => rfl
  | cons b rest ih =>
    have hb : b < 256 := h b (by simp)
    have h1 : b / 16 < 16 := by omega
    have h2 : b % 16 < 16 := Nat.mod_lt _ (by norm_num)
    have hrest := ih fun x hx => h x (by simp [hx])
    simp only [Agent.bytesToHex, List.map_cons, List.flatten_cons, Agent.byteToHex,
      List.cons_append, List.nil_append] at hrest ⊢
    simp only [Agent.hexToBytes, hexDigitVal_hexDigitLower _ h1,
      hexDigitVal_hexDigitLower _ h2, hrest]
    congr 1
    congr 1
    omega

/-! ## Claim C2: verdict thresholds -/

/-- Claim C2 (as the scorer actually behaves): the verdict is CLEAN when
the final score is at most the clean threshold, SUSPICIOUS when it is
above the clean but at most the suspicious threshold, and MALICIOUS
otherwise — but when the configuration supplies no thresholds, BOTH
default to 50 (`RuleEngine.get_threshold`'s fallback), not 20 and 50. -/
theorem c2_verdict_thresholds (rp : Dynamic.RulePatterns) (s : Dynamic.ThreatScorer) :
    (Dynamic.get_threshold {} "clean" = 50 ∧ Dynamic.get_threshold {} "suspicious" = 50) ∧
    (s.total_score ≤ Dynamic.get_threshold rp "clean" →
      Dynamic.get_verdict rp s = "CLEAN") ∧
    (¬ s.total_score ≤ Dynamic.get_threshold rp "clean" →
      s.total_score ≤ Dynamic.get_threshold rp "suspicious" →
      Dynamic.get_verdict rp s = "SUSPICIOUS") ∧
    (¬ s.total_score ≤ Dynamic.get_threshold rp "clean" →
      ¬ s.total_score ≤ Dynamic.get_threshold rp "suspicious" →
      Dynamic.get_verdict rp s = "MALICIOUS") := by
  refine ⟨⟨rfl, rfl⟩, fun h1 => ?_, fun h1 h2 => ?_, fun h1 h2 => ?_⟩
  · simp [Dynamic.get_verdict, h1]
  · simp [Dynamic.get_verdict, h1, h2]
  · simp [Dynamic.get_verdict, h1, h2]

/-- Witness for C2: with an unconfigured rule engine, scores 30, 50 and
51 produce CLEAN, CLEAN and MALICIOUS respectively (both thresholds
defaulting to 50). -/
theorem c2_verdict_thresholds_witness :
    ((30 : Int) ≤ Dynamic.get_threshold {} "clean" ∧
      Dynamic.get_verdict {} { total_score := 30 } = "CLEAN") ∧
    ((50 : Int) ≤ Dynamic.get_threshold {} "clean" ∧
      Dynamic.get_verdict {} { total_score := 50 } = "CLEAN") ∧
    (¬ (51 : Int) ≤ Dynamic.get_threshold {} "clean" ∧
      ¬ (51 : Int) ≤ Dynamic.get_threshold {} "suspicious" ∧
      Dynamic.get_verdict {} { total_score := 51 } = "MALICIOUS") :=
  ⟨⟨by decide, (c2_verdict_thresholds {} { total_score := 30 }).2.1 (by decide)⟩,
   ⟨by decide, (c2_verdict_thresholds {} { total_score := 50 }).2.1 (by decide)⟩,
   ⟨by decide, by decide,
    (c2_verdict_thresholds {} { total_score := 51 }).2.2.2 (by decide) (by decide)⟩⟩

/-- Counterexample for C2 as stated: the claim's default thresholds
(20, 50) would classify a score of 30 as SUSPICIOUS, but with no
configured thresholds the code returns CLEAN, since both defaults are 50. -/
theorem c2_counterexample :
    c2scorer.total_score = 30 ∧
    Dynamic.get_verdict {} c2scorer = "CLEAN" ∧
    Dynamic.spec_verdict 20 50 c2scorer.total_score = "SUSPICIOUS" ∧
    Dynamic.get_verdict {} c2scorer ≠ Dynamic.spec_verdict 20 50 c2scorer.total_score := by
  decide

/-! ## Claim C3: technique tag deduplication -/

/-- Claim C3 (amended): the technique-tag list contains each distinct
tag exactly once (it is duplicate-free and its members are exactly the
tags of the scored events), but its order is the set's hash-table
iteration order `h`, not first-seen order. -/
theorem c3_tags_dedup (h : String → Nat) (events : List Dynamic.ThreatEvent) :
    (Dynamic.get_mitre_techniques h events).Nodup ∧
    ∀ t, t ∈ Dynamic.get_mitre_techniques h events ↔ t ∈ Dynamic.mitreTags events := by
  have hperm := List.perm_insertionSort (fun a b => h a ≤ h b)
    (firstSeenDedup (Dynamic.mitreTags events))
  constructor
  · exact hperm.nodup_iff.mpr (nodup_firstSeenDedup _)
  · intro t
    rw [Dynamic.get_mitre_techniques, hperm.mem_iff, mem_firstSeenDedup]

/-- Counterexample for C3 as stated: under a hash order placing
`"T1003"` before `"T1059"`, the returned list is not in first-seen
order (the first event's tag is `T1059`). -/
theorem c3_counterexample :
    Dynamic.mitreTags c3events = ["T1059", "T1003"] ∧
    firstSeenDedup (Dynamic.mitreTags c3events) = ["T1059", "T1003"] ∧
    Dynamic.get_mitre_techniques c3hash c3events = ["T1003", "T1059"] ∧
    Dynamic.get_mitre_techniques c3hash c3events ≠
      firstSeenDedup (Dynamic.mitreTags c3events) := by
  decide

/-! ## Claim C9: empty event set -/

/-- Claim C9: a scorer that received no events has threat score 0 and
verdict CLEAN (for every configuration whose resolved clean threshold is
nonnegative, which includes the default of 50). -/
theorem c9_empty_clean (rp : Dynamic.RulePatterns)
    (h : 0 ≤ Dynamic.get_threshold rp "clean") :
    (Dynamic.add_events {} []).total_score = 0 ∧
    Dynamic.get_verdict rp (Dynamic.add_events {} []) = "CLEAN" := by
  refine ⟨rfl, ?_⟩
  simp only [Dynamic.add_events, List.foldl_nil]
  simp [Dynamic.get_verdict, h]

/-- Witness for C9 at the default (empty) configuration. -/
theorem c9_empty_clean_witness :
    (0 : Int) ≤ Dynamic.get_threshold {} "clean" ∧
    (Dynamic.add_events {} []).total_score = 0 ∧
    Dynamic.get_verdict {} (Dynamic.add_events {} []) = "CLEAN" :=
  ⟨by decide, c9_empty_clean {} (by decide)⟩

/-! ## Claim C7: file-path evidence scores -/

/-- Claim C7 (as the table actually reads): in the string analyzer a hit
on `/etc/shadow` contributes score 25 with tag `T1003`, a hit on
`/etc/passwd` contributes 15 with tag `T1003`, and a hit on `.ssh/`
contributes 20 with tag `T1552.004`. -/
theorem c7_filepath_scores (data : List Nat) :
    (Dynamic.matchesPattern "/etc/shadow" data = true →
      ({ source := "elf", event_type := "string", details := "Shadow file",
         score := 25, mitre := some "T1003" } : Dynamic.ThreatEvent)
        ∈ Dynamic.analyze_strings data) ∧
    (Dynamic.matchesPattern "/etc/passwd" data = true →
      ({ source := "elf", event_type := "string", details := "Passwd file",
         score := 15, mitre := some "T1003" } : Dynamic.ThreatEvent)
        ∈ Dynamic.analyze_strings data) ∧
    (Dynamic.matchesPattern ".ssh/" data = true →
      ({ source := "elf", event_type := "string", details := "SSH directory",
         score := 20, mitre := some "T1552.004" } : Dynamic.ThreatEvent)
        ∈ Dynamic.analyze_strings data) := by
  refine ⟨fun h => ?_, fun h => ?_, fun h => ?_⟩
  · exact List.mem_filterMap.mpr
      ⟨("/etc/shadow", "T1003", 25, "Shadow file"), by decide, by simp [h]⟩
  · exact List.mem_filterMap.mpr
      ⟨("/etc/passwd", "T1003", 15, "Passwd file"), by decide, by simp [h]⟩
  · exact List.mem_filterMap.mpr
      ⟨(".ssh/", "T1552.004", 20, "SSH directory"), by decide, by simp [h]⟩

/-- Witness for C7: a byte blob carrying all three paths matches all
three patterns and yields all three events. -/
theorem c7_filepath_scores_witness :
    Dynamic.matchesPattern "/etc/shadow" c7allData = true ∧
    Dynamic.matchesPattern "/etc/passwd" c7allData = true ∧
    Dynamic.matchesPattern ".ssh/" c7allData = true ∧
    ({ source := "elf", event_type := "string", details := "Shadow file",
       score := 25, mitre := some "T1003" } : Dynamic.ThreatEvent)
      ∈ Dynamic.analyze_strings c7allData ∧
    ({ source := "elf", event_type := "string", details := "Passwd file",
       score := 15, mitre := some "T1003" } : Dynamic.ThreatEvent)
      ∈ Dynamic.analyze_strings c7allData ∧
    ({ source := "elf", event_type := "string", details := "SSH directory",
       score := 20, mitre := some "T1552.004" } : Dynamic.ThreatEvent)
      ∈ Dynamic.analyze_strings c7allData :=
  ⟨by decide, by decide, by decide,
   (c7_filepath_scores c7allData).1 (by decide),
   (c7_filepath_scores c7allData).2.1 (by decide),
   (c7_filepath_scores c7allData).2.2 (by decide)⟩

/-- Counterexample for C7 as stated: an input containing `/etc/shadow`
scores 25 (not 20), and one containing a `.ssh/` path scores 20
(not 15). -/
theorem c7_counterexample :
    Dynamic.analyze_strings c7shadowData =
      [{ source := "elf", event_type := "string", details := "Shadow file",
         score := 25, mitre := some "T1003" }] ∧
    (∀ e ∈ Dynamic.analyze_strings c7shadowData, e.score ≠ 20) ∧
    Dynamic.analyze_strings c7sshData =
      [{ source := "elf", event_type := "string", details := "SSH directory",
         score := 20, mitre := some "T1552.004" }] ∧
    (∀ e ∈ Dynamic.analyze_strings c7sshData, e.score ≠ 15) := by
  decide

/-! ## Claim C1: the x86_64 -cpu argument -/

/-- Claim C1 (as the builder actually behaves): for every x86_64
configuration with hypervisor hiding, paravirt-feature hiding and timing
stabilization enabled (and a nonzero TSC frequency), the `-cpu` argument
is `qemu64`, minus `hypervisor`, minus the five KVM paravirt features,
plus `invtsc` and `tsc-frequency=<value>` (with `kvmclock` and
`kvmclock-stable-bit` subtracted a second time by the timing flags),
plus the realistic set `sse4.1 sse4.2 ssse3 popcnt avx aes pclmulqdq`.
No hyper-v feature is subtracted and `fma`, `bmi1`, `bmi2` are not
added. -/
theorem c1_cpu_value (c : AntiVM.AntiVMQEMUConfig)
    (harch : c.architecture = "x86_64") (hh : c.hide_hypervisor = true)
    (hk : c.hide_kvm_features = true) (hs : c.stabilize_timing = true)
    (hf : c.tsc_frequency ≠ 0) :
    AntiVM.buildCpuArgs c = ["-cpu", String.intercalate ","
      ["qemu64", "-hypervisor", "-kvm_pv_eoi", "-kvm_pv_unhalt", "-kvm_steal_time",
       "-kvmclock", "-kvmclock-stable-bit", "+invtsc",
       "tsc-frequency=" ++ toString c.tsc_frequency,
       "-kvmclock", "-kvmclock-stable-bit",
       "+sse4.1", "+sse4.2", "+ssse3", "+popcnt", "+avx", "+aes", "+pclmulqdq"]] := by
  simp [AntiVM.buildCpuArgs, AntiVM.buildCpuFlags, AntiVM.get_timing_cpu_flags,
    AntiVM.kvm_features, AntiVM.realistic_features, harch, hh, hk, hs, hf]

/-- Witness for C1 at the source's default configuration. -/
theorem c1_cpu_value_witness :
    AntiVM.defaultAntiVMConfig.architecture = "x86_64" ∧
    AntiVM.defaultAntiVMConfig.tsc_frequency ≠ 0 ∧
    AntiVM.buildCpuArgs AntiVM.defaultAntiVMConfig = ["-cpu", String.intercalate ","
      ["qemu64", "-hypervisor", "-kvm_pv_eoi", "-kvm_pv_unhalt", "-kvm_steal_time",
       "-kvmclock", "-kvmclock-stable-bit", "+invtsc",
       "tsc-frequency=" ++ toString AntiVM.defaultAntiVMConfig.tsc_frequency,
       "-kvmclock", "-kvmclock-stable-bit",
       "+sse4.1", "+sse4.2", "+ssse3", "+popcnt", "+avx", "+aes", "+pclmulqdq"]] :=
  ⟨rfl, by decide,
   c1_cpu_value AntiVM.defaultAntiVMConfig rfl rfl rfl rfl (by decide)⟩

/-- Counterexample for C1 as stated: the claim's realistic feature set
includes `fma`, `bmi1`, `bmi2`, yet the flag list built for the default
configuration contains none of them (and, as the full list shows, no
hyper-v feature is subtracted either). -/
theorem c1_counterexample :
    AntiVM.buildCpuFlags AntiVM.defaultAntiVMConfig =
      ["qemu64", "-hypervisor", "-kvm_pv_eoi", "-kvm_pv_unhalt", "-kvm_steal_time",
       "-kvmclock", "-kvmclock-stable-bit", "+invtsc", "tsc-frequency=3600000000",
       "-kvmclock", "-kvmclock-stable-bit",
       "+sse4.1", "+sse4.2", "+ssse3", "+popcnt", "+avx", "+aes", "+pclmulqdq"] ∧
    "+fma" ∉ AntiVM.buildCpuFlags AntiVM.defaultAntiVMConfig ∧
    "+bmi1" ∉ AntiVM.buildCpuFlags AntiVM.defaultAntiVMConfig ∧
    "+bmi2" ∉ AntiVM.buildCpuFlags AntiVM.defaultAntiVMConfig := by
  decide

/-! ## Claim C4: generated MAC OUIs -/

/-- Claim C4 fails on the code: with the supported vendor configuration
`realtek`, the OUI table's second entry is `52:54:00` — the QEMU default
OUI the claim (and the module's own docstring) forbids — so the spoofer
can emit a MAC with that prefix. -/
theorem c4_mac_oui_violation :
    "52:54:00" ∈ (AntiVM.MAC_OUI_PREFIXES.lookup "realtek").getD [] ∧
    AntiVM.generate_mac_address { mac_vendor := "realtek" } 1 0 0 0 =
      "52:54:00:00:00:00" ∧
    "52:54:00" ∈ AntiVM.forbiddenOUIs := by
  decide

/-! ## Claim C10: SMBIOS spoofer totality and table shape -/

/-- Claim C10: constructing the SMBIOS spoofer is total over profile
names — an unknown name silently falls back to the `dell_optiplex`
profile — and `get_qemu_args` always returns exactly five `-smbios`
tables of types 0, 1, 2, 3, 4 in that order. -/
theorem c10_smbios_total (name : String) (r : AntiVM.SMBIOSRandom) :
    (AntiVM.SMBIOS_PROFILES.lookup name = none →
      AntiVM.spooferInit name r =
        AntiVM.fill_auto_values AntiVM.dell_optiplex r) ∧
    specSmbiosTableShape (AntiVM.get_qemu_args (AntiVM.spooferInit name r)) = true := by
  constructor
  · intro hnone
    simp [AntiVM.spooferInit, hnone]
  · simp only [AntiVM.get_qemu_args, specSmbiosTableShape, AntiVM.type0Str,
      AntiVM.type1Str, AntiVM.type2Str, AntiVM.type3Str, AntiVM.type4Str,
      Bool.and_eq_true, decide_eq_true_eq, String.data_append, List.append_assoc]
    repeat' apply And.intro
    all_goals trivial

/-- Witness for C10: the profile name `no_such_profile` is not in the
table, construction still succeeds with the `dell_optiplex` profile, and
the argument vector has the five-table shape. -/
theorem c10_smbios_total_witness :
    AntiVM.SMBIOS_PROFILES.lookup "no_such_profile" = none ∧
    AntiVM.spooferInit "no_such_profile" {} =
      AntiVM.fill_auto_values AntiVM.dell_optiplex {} ∧
    specSmbiosTableShape
      (AntiVM.get_qemu_args (AntiVM.spooferInit "no_such_profile" {})) = true :=
  ⟨by decide, (c10_smbios_total "no_such_profile" {}).1 (by decide),
   (c10_smbios_total "no_such_profile" {}).2⟩

/-! ## Claim C5: timeout still yields a full report -/

/-- Claim C5: when the target exceeds the task timeout, `analyze` still
builds a complete `AnalysisResult` — error is `"Timeout"`, the exit code
is -1, and the stdout/stderr recovered after the kill and every
collected event stream are carried in the report. -/
theorem c5_timeout_full_report (file_hash : String) (o e : List Char)
    (sys : List Agent.SyscallEvent) (fil : List Agent.FileEvent)
    (net : List Agent.NetworkEvent) (t0 t1 : Int) :
    (Agent.analyze file_hash (.timedOut o e) sys fil net t0 t1).error = some "Timeout" ∧
    (Agent.analyze file_hash (.timedOut o e) sys fil net t0 t1).exit_code = some (-1) ∧
    (Agent.analyze file_hash (.timedOut o e) sys fil net t0 t1).stdout = o.take 10000 ∧
    (Agent.analyze file_hash (.timedOut o e) sys fil net t0 t1).stderr = e.take 10000 ∧
    (Agent.analyze file_hash (.timedOut o e) sys fil net t0 t1).syscalls = sys ∧
    (Agent.analyze file_hash (.timedOut o e) sys fil net t0 t1).files = fil ∧
    (Agent.analyze file_hash (.timedOut o e) sys fil net t0 t1).network = net ∧
    (Agent.analyze file_hash (.timedOut o e) sys fil net t0 t1).file_hash = file_hash ∧
    (Agent.analyze file_hash (.timedOut o e) sys fil net t0 t1).success = false := by
  refine ⟨rfl, rfl, rfl, rfl, rfl, rfl, rfl, rfl, rfl⟩

/-! ## Claim C6: stdout/stderr truncation -/

/-- Claim C6 (as the code actually slices): the report's stdout and
stderr are limited to the first 10000 characters (`stdout[:10000]`), not
to 10 KiB = 10240 bytes. -/
theorem c6_stdout_truncation (file_hash : String) (outcome : Agent.ExecOutcome)
    (sys : List Agent.SyscallEvent) (fil : List Agent.FileEvent)
    (net : List Agent.NetworkEvent) (t0 t1 : Int) :
    (Agent.analyze file_hash outcome sys fil net t0 t1).stdout.length ≤ 10000 ∧
    (Agent.analyze file_hash outcome sys fil net t0 t1).stderr.length ≤ 10000 := by
  cases outcome <;>
    simp only [Agent.analyze, List.length_take] <;>
    omega

/-- Counterexample for C6 as stated: a target producing 10 KiB + 1 byte
(10241 characters) of stdout gets truncated to 10000 characters, not to
10240. -/
theorem c6_counterexample :
    (Agent.analyze "" (.completed (List.replicate 10241 'a') [] 0)
        [] [] [] 0 0).stdout.length = 10000 ∧
    (10000 : Nat) ≠ 10240 := by
  refine ⟨?_, by decide⟩
  show ((List.replicate 10241 'a').take 10000).length = 10000
  simp only [List.length_take, List.length_replicate]
  omega

/-! ## Claim C8: write_file / read_file round trip -/

/-- Claim C8: for every path and byte string, `write_file` with the
hex-encoded data followed by `read_file` of the same path succeeds and
returns exactly the hex encoding of the original bytes, which decodes
back to them byte-identically. -/
theorem c8_write_read_roundtrip (fs : Agent.Fs) (path : String)
    (data : List Nat) (mode : Nat) (h : ∀ b ∈ data, b < 256) :
    (Agent.handle_command fs (.writeFile path (Agent.bytesToHex data) mode)).2.success
      = true ∧
    (Agent.handle_command
      (Agent.handle_command fs (.writeFile path (Agent.bytesToHex data) mode)).1
      (.readFile path)).2.data = some (Agent.bytesToHex data) ∧
    Agent.hexToBytes (Agent.bytesToHex data) = some data := by
  have hrt := hexToBytes_bytesToHex data h
  refine ⟨?_, ?_, hrt⟩
  · simp [Agent.handle_command, hrt]
  · simp [Agent.handle_command, hrt, List.lookup]

/-- Witness for C8 on a concrete three-byte file. -/
theorem c8_write_read_roundtrip_witness :
    (∀ b ∈ [0, 171, 255], b < 256) ∧
    (Agent.handle_command [] (.writeFile "/tmp/sample.bin"
        (Agent.bytesToHex [0, 171, 255]) 420)).2.success = true ∧
    (Agent.handle_command
      (Agent.handle_command [] (.writeFile "/tmp/sample.bin"
        (Agent.bytesToHex [0, 171, 255]) 420)).1
      (.readFile "/tmp/sample.bin")).2.data = some (Agent.bytesToHex [0, 171, 255]) ∧
    Agent.hexToBytes (Agent.bytesToHex [0, 171, 255]) = some [0, 171, 255] :=
  ⟨by decide,
   (c8_write_read_roundtrip [] "/tmp/sample.bin" [0, 171, 255] 420 (by decide)).1,
   (c8_write_read_roundtrip [] "/tmp/sample.bin" [0, 171, 255] 420 (by decide)).2.1,
   (c8_write_read_roundtrip [] "/tmp/sample.bin" [0, 171, 255] 420 (by decide)).2.2⟩

end Sandbox
